import Mathlib

/-!
Shallow embedding of `drf_roles/mixins.py` (django-rest-framework-roles).

The module defines two ViewSet mixins:

* `RoleViewSetMixin`: per invocation, resolves a single role from the
  intersection of the configured role groups with the lowercased names of
  the groups of the requesting user, then tries `getattr(self, fn + "_for_" + role)`,
  falling back to `getattr(super(), fn)` on `AttributeError` or `RoleError`.
* `PermissionViewSetMixin`: its `__init__` installs, for every permission in
  the catalog and every operation in the registry, a wrapper on the class
  under the operation name; at call time the wrapper checks one permission
  and tries `getattr(self, fn + "_for_" + permission)`, with the same fallback.

Python exceptions are modelled by `Exc`; a handler is a function from the
original arguments to `Except Exc` of a result.  `getattr` on an object is
modelled by a partial map `String → Option (Handler α β)`; the class
namespace mutated by `setattr` is modelled by a partial map from attribute
name to the data captured by the installed closure.
-/

/-- Python `str.lower()` as applied to group names and permission
codenames (ASCII letters folded to lowercase). -/
def pyLower (s : String) : String :=
  String.mk (s.data.map Char.toLower)

/-- The exceptions relevant to the dispatch layer: `AttributeError` (raised by
`getattr` for a missing attribute, carrying the attribute name),
the module-local `RoleError` (carrying its message), and any other
exception a handler may raise. -/
inductive Exc where
  | attributeError (name : String)
  | roleError (msg : String)
  | other (msg : String)
deriving DecidableEq, Repr

/-- `except (AttributeError, RoleError)` catches exactly these two kinds. -/
def isCaught : Exc → Bool
  | Exc.attributeError _ => true
  | Exc.roleError _ => true
  | Exc.other _ => false

/-- A bound method: applied to the original call arguments, it either
returns a value or raises an exception. -/
abbrev Handler (α β : Type) := α → Except Exc β

/-- The requesting user, as read from the external identity store:
group names, and the permission-check predicate `has_perm`. -/
structure User where
  groups : List String
  has_perm : String → Bool

/-- `DEFAULT_GROUPS = [group.name.lower() for group in Group.objects.all()]`. -/
def DEFAULT_GROUPS (allGroupNames : List String) : List String :=
  allGroupNames.map pyLower

/-- `DEFAULT_PERMISSIONS = [permission.codename.lower() for permission in Permission.objects.all()]`. -/
def DEFAULT_PERMISSIONS (allCodenames : List String) : List String :=
  allCodenames.map pyLower

/-- `DEFAULT_REGISTRY`, the default whitelist of ViewSet method names. -/
def DEFAULT_REGISTRY : List String :=
  ["get_queryset", "get_serializer_class", "perform_create",
   "perform_update", "perform_destroy"]

/-- Python set intersection `set(a).intersection(set(b))`, on lists with
set semantics (duplicates removed). -/
def setIntersect (a b : List String) : List String :=
  (a.filter (fun x => b.contains x)).dedup

/-- `RoleViewSetMixin._get_role`: lowercase the group names of the user,
intersect with the configured role groups; exactly one element resolves,
zero or several raise `RoleError`. -/
def get_role (roleGroups : List String) (user : User) : Except Exc String :=
  match setIntersect roleGroups (user.groups.map pyLower) with
  | [] => Except.error (Exc.roleError "The user is not a member of any role groups")
  | [r] => Except.ok r
  | _ => Except.error (Exc.roleError "The user is a member of multiple role groups")

/-- An instance of a concrete ViewSet using `RoleViewSetMixin`:
the configured `_role_groups`, the requesting user, attribute lookup on
`self` (`methods`), and attribute lookup on `super(RoleViewSetMixin, self)`
(`superMethods`, the base implementations). -/
structure RoleView (α β : Type) where
  role_groups : List String
  user : User
  methods : String → Option (Handler α β)
  superMethods : String → Option (Handler α β)

/-- An instance of a concrete ViewSet using `PermissionViewSetMixin`. -/
structure PermView (α β : Type) where
  user : User
  methods : String → Option (Handler α β)
  superMethods : String → Option (Handler α β)

/-- `getattr(obj, name)(*args)`: raises `AttributeError` naming the missing
attribute when absent, otherwise invokes the bound method on the original
arguments. -/
def tryInvoke (mh : Option (Handler α β)) (name : String) (args : α) :
    Except Exc β :=
  match mh with
  | none => Except.error (Exc.attributeError name)
  | some h => h args

/-- `getattr(super(Mixin, self), fn)(*args)`: raises `AttributeError` when the
base classes supply no implementation, otherwise invokes it. -/
def superInvoke (superMethods : String → Option (Handler α β)) (fn : String)
    (args : α) : Except Exc β :=
  tryInvoke (superMethods fn) fn args

/-- The body of the `try` block of `_call_role_fn`: resolve the role, then
look up and invoke `fn + "_for_" + role` on `self`. -/
def roleAttempt (v : RoleView α β) (fn : String) (args : α) : Except Exc β :=
  match get_role v.role_groups v.user with
  | Except.error e => Except.error e
  | Except.ok role_name =>
    tryInvoke (v.methods (fn ++ "_for_" ++ role_name))
      (fn ++ "_for_" ++ role_name) args

/-- `RoleViewSetMixin._call_role_fn`: run the `try` body; `AttributeError`
and `RoleError` escaping it (from resolution, lookup, or the invoked handler
itself) route to `getattr(super(), fn)(*args)`; other exceptions propagate. -/
def call_role_fn (v : RoleView α β) (fn : String) (args : α) : Except Exc β :=
  match roleAttempt v fn args with
  | Except.ok b => Except.ok b
  | Except.error e =>
    if isCaught e then superInvoke v.superMethods fn args else Except.error e

/-- The body of the `try` block of `_call_permission_fn`: raise `RoleError`
if the user lacks the permission, else look up and invoke
`fn + "_for_" + permission` on `self`. -/
def permAttempt (v : PermView α β) (fn permission : String) (args : α) :
    Except Exc β :=
  if v.user.has_perm permission then
    tryInvoke (v.methods (fn ++ "_for_" ++ permission))
      (fn ++ "_for_" ++ permission) args
  else Except.error (Exc.roleError "The user does not have the required permission")

/-- `PermissionViewSetMixin._call_permission_fn`: run the `try` body;
`AttributeError` and `RoleError` escaping it route to
`getattr(super(), fn)(*args)`; other exceptions propagate. -/
def call_permission_fn (v : PermView α β) (fn permission : String)
    (args : α) : Except Exc β :=
  match permAttempt v fn permission args with
  | Except.ok b => Except.ok b
  | Except.error e =>
    if isCaught e then superInvoke v.superMethods fn args else Except.error e

/-- `register_fn(fn)` does `setattr(RoleViewSetMixin, fn, inner)` where
`inner` forwards to `_call_role_fn(fn, ...)`; the class namespace maps the
attribute name to the `fn` captured by the closure. -/
def register_fn (fn : String) (d : String → Option String) :
    String → Option String :=
  fun name => if name = fn then some fn else d name

/-- The module-level loop `for fn in _viewset_method_registry: register_fn(fn)`. -/
def roleDict (registry : List String) : String → Option String :=
  registry.foldl (fun d f => register_fn f d) (fun _ => none)

/-- Invoking attribute `op` on a `RoleViewSetMixin` ViewSet: `none` when no
wrapper was registered under that name, otherwise the wrapper forwards to
`_call_role_fn`. -/
def invokeRoleOp (registry : List String) (v : RoleView α β) (op : String)
    (args : α) : Option (Except Exc β) :=
  (roleDict registry op).map (fun f => call_role_fn v f args)

/-- `register_permission_fn(permission, fn)` does
`setattr(PermissionViewSetMixin, fn, inner)` where `inner` forwards to
`_call_permission_fn(fn, permission, ...)`; the class namespace maps the
attribute name (which is `fn`, not `fn + "_for_" + permission`) to the pair
captured by the closure. -/
def register_permission_fn (permission fn : String)
    (d : String → Option (String × String)) : String → Option (String × String) :=
  fun name => if name = fn then some (fn, permission) else d name

/-- The inner loop of `PermissionViewSetMixin.__init__` for one permission. -/
def permRegisterAll (permission : String) (registry : List String)
    (d : String → Option (String × String)) : String → Option (String × String) :=
  registry.foldl (fun d f => register_permission_fn permission f d) d

/-- `PermissionViewSetMixin.__init__`: for every permission in the catalog,
for every operation in the registry, `register_permission_fn(permission, fn)`,
mutating the class namespace `d`. -/
def permInit (permissions registry : List String)
    (d : String → Option (String × String)) : String → Option (String × String) :=
  permissions.foldl (fun d p => permRegisterAll p registry d) d

/-- Invoke a method map at the arguments, when the method exists.  Used to
state, without comparing functions, what a stored handler returns. -/
def tryMethod (m : Option (Handler α β)) (a : α) : Option (Except Exc β) :=
  m.map (fun h => h a)

/-- Claim wording for role resolution: the intersection of the group names
of the caller with the configured role groups, COMPARING NAMES
CASE-INSENSITIVELY (both sides folded).  Written from the words of the
claim, to be compared with `get_role`. -/
def ciIntersect (roleGroups userGroups : List String) : List String :=
  (roleGroups.filter
    (fun x => userGroups.any (fun y => pyLower y = pyLower x))).dedup

/-! ## Helper lemmas -/

/-- Role resolution succeeds exactly on a singleton intersection. -/
theorem get_role_ok (rg : List String) (u : User) (r : String)
    (h : setIntersect rg (u.groups.map pyLower) = [r]) :
    get_role rg u = Except.ok r := by
  unfold get_role
  rw [h]

/-- Empty intersection: `RoleError` about no role groups. -/
theorem get_role_empty (rg : List String) (u : User)
    (h : setIntersect rg (u.groups.map pyLower) = []) :
    get_role rg u =
      Except.error (Exc.roleError "The user is not a member of any role groups") := by
  unfold get_role
  rw [h]

/-- Intersection of two or more: `RoleError` about multiple role groups. -/
theorem get_role_multi (rg : List String) (u : User)
    (h : 2 ≤ (setIntersect rg (u.groups.map pyLower)).length) :
    get_role rg u =
      Except.error (Exc.roleError "The user is a member of multiple role groups") := by
  unfold get_role
  rcases hl : setIntersect rg (u.groups.map pyLower) with _ | ⟨a, _ | ⟨b, t⟩⟩
  · rw [hl] at h; simp at h
  · rw [hl] at h; simp at h
  · rfl

/-- Non-singleton intersection always yields a `RoleError`. -/
theorem get_role_err (rg : List String) (u : User)
    (h : (setIntersect rg (u.groups.map pyLower)).length ≠ 1) :
    ∃ m, get_role rg u = Except.error (Exc.roleError m) := by
  rcases hl : setIntersect rg (u.groups.map pyLower) with _ | ⟨a, _ | ⟨b, t⟩⟩
  · exact ⟨_, get_role_empty rg u hl⟩
  · rw [hl] at h; simp at h
  · exact ⟨_, get_role_multi rg u (by rw [hl]; simp)⟩

/-- When role resolution fails, `_call_role_fn` falls back to the base
implementation, whatever methods the resource defines. -/
theorem call_role_fn_fallback_of_err (v : RoleView α β) (fn : String) (args : α)
    (h : (setIntersect v.role_groups (v.user.groups.map pyLower)).length ≠ 1) :
    call_role_fn v fn args = superInvoke v.superMethods fn args := by
  obtain ⟨m, hm⟩ := get_role_err v.role_groups v.user h
  unfold call_role_fn roleAttempt
  rw [hm]
  rfl

/-- When role resolution succeeds but the specialized method is missing,
`_call_role_fn` falls back to the base implementation. -/
theorem call_role_fn_fallback_of_missing (v : RoleView α β) (fn r : String)
    (args : α) (hr : get_role v.role_groups v.user = Except.ok r)
    (hm : v.methods (fn ++ "_for_" ++ r) = none) :
    call_role_fn v fn args = superInvoke v.superMethods fn args := by
  simp only [call_role_fn, roleAttempt, tryInvoke, hr, hm, isCaught, if_true]

/-- When role resolution succeeds and the specialized method is present,
`_call_role_fn` returns its outcome, except that a raised `AttributeError`
or `RoleError` is caught and converted into the fallback call. -/
theorem call_role_fn_spec_outcome (v : RoleView α β) (fn r : String)
    (args : α) (h : Handler α β)
    (hr : get_role v.role_groups v.user = Except.ok r)
    (hm : v.methods (fn ++ "_for_" ++ r) = some h) :
    call_role_fn v fn args =
      match h args with
      | Except.ok b => Except.ok b
      | Except.error e =>
        if isCaught e then superInvoke v.superMethods fn args
        else Except.error e := by
  simp only [call_role_fn, roleAttempt, tryInvoke, hr, hm]

/-- When the user lacks the permission, `_call_permission_fn` falls back to
the base implementation, whatever methods the resource defines. -/
theorem call_permission_fn_fallback_of_denied (v : PermView α β)
    (fn permission : String) (args : α)
    (h : v.user.has_perm permission = false) :
    call_permission_fn v fn permission args =
      superInvoke v.superMethods fn args := by
  simp only [call_permission_fn, permAttempt, h, Bool.false_eq_true, if_false,
    isCaught, if_true]

/-- When the user holds the permission but the specialized method is
missing, `_call_permission_fn` falls back to the base implementation. -/
theorem call_permission_fn_fallback_of_missing (v : PermView α β)
    (fn permission : String) (args : α)
    (hp : v.user.has_perm permission = true)
    (hm : v.methods (fn ++ "_for_" ++ permission) = none) :
    call_permission_fn v fn permission args =
      superInvoke v.superMethods fn args := by
  simp only [call_permission_fn, permAttempt, hp, if_true, tryInvoke, hm,
    isCaught]

/-- When the user holds the permission and the specialized method is
present, `_call_permission_fn` returns its outcome, except that a raised
`AttributeError` or `RoleError` is caught and converted into fallback. -/
theorem call_permission_fn_spec_outcome (v : PermView α β)
    (fn permission : String) (args : α) (h : Handler α β)
    (hp : v.user.has_perm permission = true)
    (hm : v.methods (fn ++ "_for_" ++ permission) = some h) :
    call_permission_fn v fn permission args =
      match h args with
      | Except.ok b => Except.ok b
      | Except.error e =>
        if isCaught e then superInvoke v.superMethods fn args
        else Except.error e := by
  simp only [call_permission_fn, permAttempt, hp, if_true, tryInvoke, hm]

/-- Value of the role registration fold at any attribute name. -/
theorem roleDict_foldl (registry : List String) (d : String → Option String)
    (name : String) :
    (registry.foldl (fun d f => register_fn f d) d) name
      = if name ∈ registry then some name else d name := by
  induction registry generalizing d with
  | nil => simp
  | cons f fs ih =>
    simp only [List.foldl_cons, ih, register_fn, List.mem_cons]
    by_cases h1 : name ∈ fs
    · simp [h1]
    · by_cases h2 : name = f
      · simp [h1, h2]
      · simp [h1, h2]

/-- Every registered operation has a wrapper installed under its own name. -/
theorem roleDict_mem (registry : List String) (op : String)
    (h : op ∈ registry) : roleDict registry op = some op := by
  simp [roleDict, roleDict_foldl, h]

/-- Value of one inner registration pass of `__init__` at any name: the
names in the registry are bound to closures over the given permission,
all other names are untouched. -/
theorem permRegisterAll_apply (p : String) (registry : List String)
    (d : String → Option (String × String)) (name : String) :
    permRegisterAll p registry d name
      = if name ∈ registry then some (name, p) else d name := by
  unfold permRegisterAll
  induction registry generalizing d with
  | nil => simp
  | cons f fs ih =>
    simp only [List.foldl_cons, ih, register_permission_fn, List.mem_cons]
    by_cases h1 : name ∈ fs
    · simp [h1]
    · by_cases h2 : name = f
      · simp [h1, h2]
      · simp [h1, h2]

/-- `__init__` leaves every name outside the registry untouched; in
particular it installs nothing under any `<operation>_for_<permission>`
name that is not itself a registered operation. -/
theorem permInit_notMem (perms registry : List String)
    (d : String → Option (String × String)) (name : String)
    (h : name ∉ registry) :
    permInit perms registry d name = d name := by
  induction perms generalizing d with
  | nil => rfl
  | cons p ps ih =>
    show permInit ps registry (permRegisterAll p registry d) name = d name
    rw [ih]
    simp [permRegisterAll_apply, h]

/-- `__init__` on a catalog ending in permission `p` binds every registered
operation name to the closure over `p` (the last permission iterated wins),
and leaves other names at their previous bindings. -/
theorem permInit_append (ps : List String) (p : String)
    (registry : List String) (d : String → Option (String × String))
    (name : String) :
    permInit (ps ++ [p]) registry d name
      = if name ∈ registry then some (name, p)
        else permInit ps registry d name := by
  unfold permInit
  rw [List.foldl_append]
  exact permRegisterAll_apply p registry _ name


/-- Invoking the base implementation when the base classes supply none
raises `AttributeError` naming the operation. -/
theorem superInvoke_none (sm : String → Option (Handler α β)) (fn : String)
    (args : α) (h : sm fn = none) :
    superInvoke sm fn args = Except.error (Exc.attributeError fn) := by
  unfold superInvoke tryInvoke
  rw [h]

/-- Invoking the base implementation when it exists runs it on the original
arguments. -/
theorem superInvoke_some (sm : String → Option (Handler α β)) (fn : String)
    (args : α) (hb : Handler α β) (h : sm fn = some hb) :
    superInvoke sm fn args = hb args := by
  unfold superInvoke tryInvoke
  rw [h]

/-- If no base implementation ever raises `RoleError`, neither does the
fallback call. -/
theorem superInvoke_no_roleError (sm : String → Option (Handler α β))
    (fn : String) (args : α)
    (hp : ∀ name h, sm name = some h →
      ∀ a m, h a ≠ Except.error (Exc.roleError m)) :
    ∀ m, superInvoke sm fn args ≠ Except.error (Exc.roleError m) := by
  intro m
  unfold superInvoke tryInvoke
  cases hs : sm fn with
  | none => simp
  | some h => exact hp fn h hs args m

/-- Role resolution succeeds if and only if the intersection is a
singleton, and then returns its unique element. -/
theorem get_role_ok_iff (rg : List String) (u : User) (r : String) :
    get_role rg u = Except.ok r ↔
      setIntersect rg (u.groups.map pyLower) = [r] := by
  constructor
  · intro h
    unfold get_role at h
    rcases hl : setIntersect rg (u.groups.map pyLower) with _ | ⟨a, _ | ⟨b, t⟩⟩ <;>
      rw [hl] at h
    · simp at h
    · rw [Except.ok.injEq] at h
      rw [h]
    · simp at h
  · exact get_role_ok rg u r

/-! ## Claims -/

/-- Claim C1: for every caller belonging to exactly one configured
role-group, invoking a registered operation returns the result of the
method named `<operation>_for_<role>` on the resource object when such a
method is defined (it is invoked with the original arguments and fully
replaces the base behavior, with no chaining to the base implementation),
and otherwise returns the result of the base implementation of the
operation. -/
theorem claim_C1 {α β : Type} (registry : List String) (v : RoleView α β)
    (op r : String) (args : α)
    (hreg : op ∈ registry)
    (hrole : setIntersect v.role_groups (v.user.groups.map pyLower) = [r]) :
    (∀ h b, v.methods (op ++ "_for_" ++ r) = some h → h args = Except.ok b →
      invokeRoleOp registry v op args = some (Except.ok b))
    ∧ (v.methods (op ++ "_for_" ++ r) = none →
      invokeRoleOp registry v op args =
        some (superInvoke v.superMethods op args)) := by
  have hd : roleDict registry op = some op := roleDict_mem registry op hreg
  have hr : get_role v.role_groups v.user = Except.ok r :=
    get_role_ok _ _ _ hrole
  constructor
  · intro h b hm hb
    have hc := call_role_fn_spec_outcome v op r args h hr hm
    rw [hb] at hc
    simp [invokeRoleOp, hd, hc]
  · intro hm
    have hc := call_role_fn_fallback_of_missing v op r args hr hm
    simp [invokeRoleOp, hd, hc]

/-- The scenario of the spec: role groups admin and viewer, registry
containing the list operation, a caller in the admin group only, a
specialized method returning "A" and a base implementation returning "B". -/
def c1view : RoleView Unit String where
  role_groups := ["admin", "viewer"]
  user := ⟨["admin"], fun _ => false⟩
  methods := fun name =>
    if name = "list_for_admin" then some (fun _ => Except.ok "A") else none
  superMethods := fun name =>
    if name = "list" then some (fun _ => Except.ok "B") else none

/-- Witness for claim C1: in the spec scenario, dispatch returns "A". -/
theorem claim_C1_witness :
    "list" ∈ ["list"]
    ∧ setIntersect c1view.role_groups (c1view.user.groups.map pyLower) = ["admin"]
    ∧ invokeRoleOp ["list"] c1view "list" () = some (Except.ok "A") := by
  refine ⟨by simp, by decide, ?_⟩
  exact (claim_C1 ["list"] c1view "list" "admin" () (by simp) (by decide)).1
    (fun _ => Except.ok "A") "A" rfl rfl

/-- Claim C2: for every caller belonging to zero, or to two or more, of the
configured role-groups, invoking a registered operation always returns the
result of the base implementation, regardless of which specialized methods
the resource object defines. -/
theorem claim_C2 {α β : Type} (registry : List String) (v : RoleView α β)
    (op : String) (args : α)
    (hreg : op ∈ registry)
    (hlen : (setIntersect v.role_groups (v.user.groups.map pyLower)).length ≠ 1) :
    invokeRoleOp registry v op args =
      some (superInvoke v.superMethods op args) := by
  have hd : roleDict registry op = some op := roleDict_mem registry op hreg
  have hc := call_role_fn_fallback_of_err v op args hlen
  simp [invokeRoleOp, hd, hc]

/-- The ambiguous scenario of the spec: the caller is in both role groups,
and the specialized method is defined. -/
def c2view : RoleView Unit String where
  role_groups := ["admin", "viewer"]
  user := ⟨["admin", "viewer"], fun _ => false⟩
  methods := fun name =>
    if name = "list_for_admin" then some (fun _ => Except.ok "A") else none
  superMethods := fun name =>
    if name = "list" then some (fun _ => Except.ok "B") else none

/-- Witness for claim C2: with the caller in both groups, dispatch returns
"B" from the base implementation. -/
theorem claim_C2_witness :
    "list" ∈ ["list"]
    ∧ (setIntersect c2view.role_groups (c2view.user.groups.map pyLower)).length ≠ 1
    ∧ invokeRoleOp ["list"] c2view "list" () = some (Except.ok "B") := by
  refine ⟨by simp, by decide, ?_⟩
  have hc := claim_C2 ["list"] c2view "list" () (by simp) (by decide)
  rw [hc]
  rfl

/-- A caller whose identity store lists the group named Admin, capitalized. -/
def c3user : User := ⟨["Admin"], fun _ => false⟩

/-- Counterexample to claim C3: with the role-group set configured as
["Admin"] and the caller in the group "Admin", a case-insensitive
intersection (as the claim describes resolution) is the singleton
["Admin"], so the claim predicts that element as the resolved role; but
`_get_role` lowercases only the group names of the caller and compares
them with the configured names exactly, so the intersection is empty and
resolution fails with a role-resolution error. -/
theorem claim_C3_counterexample :
    ciIntersect ["Admin"] c3user.groups = ["Admin"]
    ∧ get_role ["Admin"] c3user =
        Except.error (Exc.roleError "The user is not a member of any role groups") := by
  exact ⟨by decide, rfl⟩

/-- Claim C3 as amended: role resolution lowercases the group names of the
caller and intersects them with the configured role-group set compared
exactly (the configured names are not case-folded); if the intersection
has exactly one element that element is the resolved role, and if it is
empty or has more than one element resolution fails with a
role-resolution error rather than picking a role. -/
theorem claim_C3_amended (rg : List String) (u : User) :
    (∀ r, setIntersect rg (u.groups.map pyLower) = [r] →
      get_role rg u = Except.ok r)
    ∧ (setIntersect rg (u.groups.map pyLower) = [] →
      get_role rg u =
        Except.error (Exc.roleError "The user is not a member of any role groups"))
    ∧ (2 ≤ (setIntersect rg (u.groups.map pyLower)).length →
      get_role rg u =
        Except.error (Exc.roleError "The user is a member of multiple role groups")) :=
  ⟨fun r h => get_role_ok rg u r h,
   fun h => get_role_empty rg u h,
   fun h => get_role_multi rg u h⟩

/-- Witness for the amended claim C3: a caller in the capitalized group
Admin resolves to the configured lowercase role name. -/
theorem claim_C3_amended_witness :
    setIntersect ["admin", "viewer"] (c3user.groups.map pyLower) = ["admin"]
    ∧ get_role ["admin", "viewer"] c3user = Except.ok "admin" := by
  refine ⟨by decide, ?_⟩
  exact (claim_C3_amended ["admin", "viewer"] c3user).1 "admin" (by decide)

/-- Counterexample to claim C4: after `__init__` runs with permission
catalog ["can_edit"] and registry ["update"], the class namespace holds
nothing under the name "update_for_can_edit" (the claim asserts a
synthesized method exists there); what `register_permission_fn` installs
is a wrapper under the plain operation name "update", closing over the
permission. -/
theorem claim_C4_counterexample :
    permInit ["can_edit"] ["update"] (fun _ => none) "update_for_can_edit" = none
    ∧ permInit ["can_edit"] ["update"] (fun _ => none) "update"
        = some ("update", "can_edit") := by
  exact ⟨rfl, rfl⟩

/-- Claim C4 as amended: each run of the `PermissionViewSetMixin`
initializer installs, for every (permission, operation) pair of the
catalog and the registry, a wrapper on the mixin class under the plain
operation name (not under an `<operation>_for_<permission>` name);
successive permissions overwrite the same name, leaving each registered
operation bound to a wrapper closing over the last catalog permission,
and every name outside the registry is left untouched.  The setup mutates
the class namespace and runs at every instance construction. -/
theorem claim_C4_amended (ps : List String) (p : String)
    (registry : List String) (d : String → Option (String × String)) :
    (∀ fn, fn ∈ registry → permInit (ps ++ [p]) registry d fn = some (fn, p))
    ∧ (∀ name, name ∉ registry → permInit (ps ++ [p]) registry d name = d name) := by
  constructor
  · intro fn hfn
    rw [permInit_append]
    simp [hfn]
  · intro name hname
    exact permInit_notMem _ _ _ _ hname

/-- Witness for the amended claim C4: with catalog ["can_edit"] and
registry ["update"], the operation name is bound to the wrapper over
"can_edit" and the name "update_for_can_edit" stays unbound. -/
theorem claim_C4_amended_witness :
    "update" ∈ ["update"]
    ∧ "update_for_can_edit" ∉ ["update"]
    ∧ permInit ([] ++ ["can_edit"]) ["update"] (fun _ => none) "update"
        = some ("update", "can_edit")
    ∧ permInit ([] ++ ["can_edit"]) ["update"] (fun _ => none) "update_for_can_edit"
        = none := by
  refine ⟨by simp, by simp, ?_, ?_⟩
  · exact (claim_C4_amended [] "can_edit" ["update"] (fun _ => none)).1
      "update" (by simp)
  · exact (claim_C4_amended [] "can_edit" ["update"] (fun _ => none)).2
      "update_for_can_edit" (by simp)

/-- Claim C5: for a caller holding permission P, `_call_permission_fn`
returns the result of `<operation>_for_P` when the concrete resource
defines it, and otherwise falls back to the base implementation; for a
caller lacking P it always falls back to the base implementation,
whatever specialized methods exist. -/
theorem claim_C5 {α β : Type} (v : PermView α β) (fn P : String) (args : α) :
    (v.user.has_perm P = true →
      (∀ h b, v.methods (fn ++ "_for_" ++ P) = some h → h args = Except.ok b →
        call_permission_fn v fn P args = Except.ok b)
      ∧ (v.methods (fn ++ "_for_" ++ P) = none →
        call_permission_fn v fn P args = superInvoke v.superMethods fn args))
    ∧ (v.user.has_perm P = false →
      call_permission_fn v fn P args = superInvoke v.superMethods fn args) := by
  constructor
  · intro hp
    constructor
    · intro h b hm hb
      have hc := call_permission_fn_spec_outcome v fn P args h hp hm
      rw [hb] at hc
      exact hc
    · exact fun hm => call_permission_fn_fallback_of_missing v fn P args hp hm
  · exact fun hp => call_permission_fn_fallback_of_denied v fn P args hp

/-- The permission scenario of the spec: the caller holds can_edit but the
resource does not override update_for_can_edit, so dispatch must return
the base result. -/
def c5view : PermView Unit String where
  user := ⟨[], fun p => p == "can_edit"⟩
  methods := fun _ => none
  superMethods := fun name =>
    if name = "update" then some (fun _ => Except.ok "BASE") else none

/-- Witness for claim C5: the spec scenario returns the base result. -/
theorem claim_C5_witness :
    c5view.user.has_perm "can_edit" = true
    ∧ c5view.methods ("update" ++ "_for_" ++ "can_edit") = none
    ∧ call_permission_fn c5view "update" "can_edit" () = Except.ok "BASE" := by
  refine ⟨rfl, rfl, ?_⟩
  have hc := ((claim_C5 c5view "update" "can_edit" ()).1 rfl).2 rfl
  rw [hc]
  rfl

/-- Claim C6: the dispatch layer never surfaces its own `RoleError` to the
request caller: as long as the base implementations themselves never
raise `RoleError`, no invocation of either dispatch function returns one,
because every role-resolution failure and every permission-denied
condition is caught and converted into a call to the base
implementation. -/
theorem claim_C6 {α β : Type} (vr : RoleView α β) (vp : PermView α β)
    (fn P : String) (args : α)
    (hr : ∀ name h, vr.superMethods name = some h →
      ∀ a m, h a ≠ Except.error (Exc.roleError m))
    (hp : ∀ name h, vp.superMethods name = some h →
      ∀ a m, h a ≠ Except.error (Exc.roleError m)) :
    (∀ m, call_role_fn vr fn args ≠ Except.error (Exc.roleError m))
    ∧ (∀ m, call_permission_fn vp fn P args ≠ Except.error (Exc.roleError m)) := by
  constructor
  · intro m
    unfold call_role_fn
    cases ha : roleAttempt vr fn args with
    | ok b => simp
    | error e =>
      show (if isCaught e = true then superInvoke vr.superMethods fn args
            else Except.error e) ≠ Except.error (Exc.roleError m)
      by_cases hc : isCaught e = true
      · rw [if_pos hc]
        exact superInvoke_no_roleError vr.superMethods fn args hr m
      · rw [if_neg hc]
        cases e <;> simp [isCaught] at hc ⊢
  · intro m
    unfold call_permission_fn
    cases ha : permAttempt vp fn P args with
    | ok b => simp
    | error e =>
      show (if isCaught e = true then superInvoke vp.superMethods fn args
            else Except.error e) ≠ Except.error (Exc.roleError m)
      by_cases hc : isCaught e = true
      · rw [if_pos hc]
        exact superInvoke_no_roleError vp.superMethods fn args hp m
      · rw [if_neg hc]
        cases e <;> simp [isCaught] at hc ⊢

/-- A role ViewSet whose caller is in no role group and whose base always
returns "B": the resolution error is swallowed. -/
def c6rview : RoleView Unit String where
  role_groups := ["admin"]
  user := ⟨[], fun _ => false⟩
  methods := fun _ => none
  superMethods := fun _ => some (fun _ => Except.ok "B")

/-- A permission ViewSet whose caller holds nothing and whose base always
returns "B": the permission-denied error is swallowed. -/
def c6pview : PermView Unit String where
  user := ⟨[], fun _ => false⟩
  methods := fun _ => none
  superMethods := fun _ => some (fun _ => Except.ok "B")

/-- Witness for claim C6: with harmless base implementations, neither
dispatch function returns a `RoleError`. -/
theorem claim_C6_witness :
    call_role_fn c6rview "list" () ≠
      Except.error (Exc.roleError "The user is not a member of any role groups")
    ∧ call_permission_fn c6pview "list" "p" () ≠
      Except.error (Exc.roleError "The user does not have the required permission") := by
  have hside : ∀ (sm : String → Option (Handler Unit String)),
      sm = (fun _ => some (fun _ => Except.ok "B")) →
      ∀ name h, sm name = some h →
        ∀ (a : Unit) m, h a ≠ Except.error (Exc.roleError m) := by
    intro sm hsm name h hsome a m
    rw [hsm] at hsome
    have hh : h = fun _ => Except.ok "B" := (Option.some.inj hsome).symm
    rw [hh]
    simp
  have H := claim_C6 c6rview c6pview "list" "p" ()
    (hside c6rview.superMethods rfl) (hside c6pview.superMethods rfl)
  exact ⟨H.1 _, H.2 _⟩

/-- A role ViewSet whose specialized method itself raises
`AttributeError` (for example by touching a missing attribute in its
body), while the base implementation returns "B". -/
def c7view : RoleView Unit String where
  role_groups := ["admin"]
  user := ⟨["admin"], fun _ => false⟩
  methods := fun name =>
    if name = "list_for_admin"
    then some (fun _ => Except.error (Exc.attributeError "boom")) else none
  superMethods := fun name =>
    if name = "list" then some (fun _ => Except.ok "B") else none

/-- Counterexample to claim C7: role resolution succeeds, the specialized
method is defined and its invocation raises `AttributeError`, yet the
error does not propagate to the caller: the `try` block of
`_call_role_fn` also covers the invocation of the specialized handler, so
the dispatch layer catches the handler-level error and converts it into a
fallback call, returning "B". -/
theorem claim_C7_counterexample :
    get_role c7view.role_groups c7view.user = Except.ok "admin"
    ∧ tryMethod (c7view.methods "list_for_admin") ()
        = some (Except.error (Exc.attributeError "boom"))
    ∧ call_role_fn c7view "list" () = Except.ok "B" := by
  exact ⟨rfl, rfl, rfl⟩

/-- Claim C7 as amended: an error raised by the eventually-invoked handler
propagates unchanged to the caller, except that an `AttributeError` or
`RoleError` raised by the specialized method is caught by the dispatch
layer and converted into a fallback call to the base implementation;
errors raised by the base fallback implementation always propagate
unchanged, in both dispatchers. -/
theorem claim_C7_amended {α β : Type} (vr : RoleView α β) (vp : PermView α β)
    (fn P r : String) (args : α) :
    (∀ h, get_role vr.role_groups vr.user = Except.ok r →
      vr.methods (fn ++ "_for_" ++ r) = some h →
      call_role_fn vr fn args =
        match h args with
        | Except.ok b => Except.ok b
        | Except.error e =>
          if isCaught e then superInvoke vr.superMethods fn args
          else Except.error e)
    ∧ (∀ hb, vr.superMethods fn = some hb →
      (setIntersect vr.role_groups (vr.user.groups.map pyLower)).length ≠ 1 →
      call_role_fn vr fn args = hb args)
    ∧ (∀ hb, vr.superMethods fn = some hb →
      get_role vr.role_groups vr.user = Except.ok r →
      vr.methods (fn ++ "_for_" ++ r) = none →
      call_role_fn vr fn args = hb args)
    ∧ (∀ h, vp.user.has_perm P = true →
      vp.methods (fn ++ "_for_" ++ P) = some h →
      call_permission_fn vp fn P args =
        match h args with
        | Except.ok b => Except.ok b
        | Except.error e =>
          if isCaught e then superInvoke vp.superMethods fn args
          else Except.error e)
    ∧ (∀ hb, vp.superMethods fn = some hb →
      vp.user.has_perm P = false →
      call_permission_fn vp fn P args = hb args)
    ∧ (∀ hb, vp.superMethods fn = some hb →
      vp.user.has_perm P = true →
      vp.methods (fn ++ "_for_" ++ P) = none →
      call_permission_fn vp fn P args = hb args) := by
  refine ⟨?_, ?_, ?_, ?_, ?_, ?_⟩
  · intro h hr hm
    exact call_role_fn_spec_outcome vr fn r args h hr hm
  · intro hb hsb hlen
    rw [call_role_fn_fallback_of_err vr fn args hlen]
    exact superInvoke_some _ fn args hb hsb
  · intro hb hsb hr hm
    rw [call_role_fn_fallback_of_missing vr fn r args hr hm]
    exact superInvoke_some _ fn args hb hsb
  · intro h hp hm
    exact call_permission_fn_spec_outcome vp fn P args h hp hm
  · intro hb hsb hp
    rw [call_permission_fn_fallback_of_denied vp fn P args hp]
    exact superInvoke_some _ fn args hb hsb
  · intro hb hsb hp hm
    rw [call_permission_fn_fallback_of_missing vp fn P args hp hm]
    exact superInvoke_some _ fn args hb hsb

/-- A role ViewSet whose specialized method raises an exception of a type
other than `AttributeError` and `RoleError`. -/
def c7bview : RoleView Unit String where
  role_groups := ["admin"]
  user := ⟨["admin"], fun _ => false⟩
  methods := fun name =>
    if name = "list_for_admin"
    then some (fun _ => Except.error (Exc.other "ValueError")) else none
  superMethods := fun name =>
    if name = "list" then some (fun _ => Except.ok "B") else none

/-- A permission ViewSet used to instantiate the permission half of the
amended claim C7. -/
def c7pview : PermView Unit String where
  user := ⟨[], fun _ => false⟩
  methods := fun _ => none
  superMethods := fun name =>
    if name = "list" then some (fun _ => Except.error (Exc.other "E")) else none

/-- Witness for the amended claim C7: a specialized handler raising an
uncaught exception kind sees it propagate unchanged, and a base handler
raising any exception on the fallback path sees it propagate unchanged. -/
theorem claim_C7_amended_witness :
    call_role_fn c7bview "list" () = Except.error (Exc.other "ValueError")
    ∧ call_permission_fn c7pview "list" "p" () = Except.error (Exc.other "E") := by
  constructor
  · have hc := (claim_C7_amended c7bview c7pview "list" "p" "admin" ()).1
      (fun _ => Except.error (Exc.other "ValueError")) rfl rfl
    rw [hc]
    rfl
  · have hc := (claim_C7_amended c7bview c7pview "list" "p" "admin" ()).2.2.2.2.1
      (fun _ => Except.error (Exc.other "E")) rfl rfl
    rw [hc]

/-- A ViewSet configured with the default role groups computed from an
identity store containing the capitalized group Editors; the resource
defines a specialized method under the as-stored spelling
list_for_Editors, and a base implementation returning "B". -/
def c8view : RoleView Unit String where
  role_groups := DEFAULT_GROUPS ["Editors"]
  user := ⟨["Editors"], fun _ => false⟩
  methods := fun name =>
    if name = "list_for_Editors" then some (fun _ => Except.ok "S") else none
  superMethods := fun name =>
    if name = "list" then some (fun _ => Except.ok "B") else none

/-- Counterexample to claim C8: the claim says role and permission names
are matched case-sensitively AS STORED IN THE IDENTITY STORE and that
permission names are used unmodified; but the default catalogs lowercase
the stored names, so with the group stored as Editors the method matched
is list_for_editors, not list_for_Editors: a resource defining exactly
the as-stored name is bypassed and dispatch falls back to "B", and a
stored permission codename Can_Edit enters the catalog as can_edit. -/
theorem claim_C8_counterexample :
    DEFAULT_GROUPS ["Editors"] = ["editors"]
    ∧ DEFAULT_PERMISSIONS ["Can_Edit"] = ["can_edit"]
    ∧ tryMethod (c8view.methods "list_for_Editors") () = some (Except.ok "S")
    ∧ call_role_fn c8view "list" () = Except.ok "B" := by
  exact ⟨rfl, rfl, rfl, rfl⟩

/-- Claim C8 as amended: specialized methods are matched by the exact
names `<operation>_for_<role>` and `<operation>_for_<permission>`,
compared case-sensitively with no case folding at lookup time, where the
role name is the resolved element of the configured role-group set (also
equal to a lowercased group name of the caller) and the permission name
is the catalog entry, used unmodified in both the permission check and
the method name; under the default configuration those catalog entries
are the lowercased store names, not the names as stored.  Formally, the
dispatch outcome depends on the resource methods only through the exact
constructed name, and on the permission predicate only at the unmodified
permission. -/
theorem claim_C8_amended {α β : Type} (v v2 : RoleView α β)
    (w w2 : PermView α β) (fn P r : String) (args : α) :
    (get_role v.role_groups v.user = Except.ok r →
      v2.role_groups = v.role_groups → v2.user = v.user →
      v2.superMethods = v.superMethods →
      v2.methods (fn ++ "_for_" ++ r) = v.methods (fn ++ "_for_" ++ r) →
      call_role_fn v2 fn args = call_role_fn v fn args)
    ∧ (w2.user.has_perm P = w.user.has_perm P →
      w2.superMethods = w.superMethods →
      w2.methods (fn ++ "_for_" ++ P) = w.methods (fn ++ "_for_" ++ P) →
      call_permission_fn w2 fn P args = call_permission_fn w fn P args)
    ∧ (get_role v.role_groups v.user = Except.ok r →
      r ∈ v.role_groups ∧ r ∈ v.user.groups.map pyLower) := by
  refine ⟨?_, ?_, ?_⟩
  · intro hr h1 h2 h3 h4
    have hA : roleAttempt v2 fn args = roleAttempt v fn args := by
      unfold roleAttempt
      rw [h1, h2, hr]
      show tryInvoke (v2.methods (fn ++ "_for_" ++ r)) (fn ++ "_for_" ++ r) args
        = tryInvoke (v.methods (fn ++ "_for_" ++ r)) (fn ++ "_for_" ++ r) args
      rw [h4]
    unfold call_role_fn
    rw [hA, h3]
  · intro g1 g2 g3
    have hA : permAttempt w2 fn P args = permAttempt w fn P args := by
      unfold permAttempt
      rw [g1, g3]
    unfold call_permission_fn
    rw [hA, g2]
  · intro hr
    have hsi := (get_role_ok_iff v.role_groups v.user r).1 hr
    have hmem : r ∈ setIntersect v.role_groups (v.user.groups.map pyLower) := by
      rw [hsi]
      exact List.mem_singleton_self r
    unfold setIntersect at hmem
    rw [List.mem_dedup, List.mem_filter] at hmem
    refine ⟨hmem.1, ?_⟩
    have := hmem.2
    simpa using this

/-- Witness for the amended claim C8: in a configuration where resolution
succeeds with role admin, the resolved role is a configured role-group
name and a lowercased caller group name. -/
theorem claim_C8_amended_witness :
    get_role c1view.role_groups c1view.user = Except.ok "admin"
    ∧ ("admin" ∈ c1view.role_groups
      ∧ "admin" ∈ c1view.user.groups.map pyLower) := by
  refine ⟨rfl, ?_⟩
  exact (claim_C8_amended c1view c1view c5view c5view "list" "p" "admin" ()).2.2 rfl

/-- Claim C9: after any number of `PermissionViewSetMixin` constructions,
each registered operation name is bound on the mixin class to exactly one
wrapper, and that wrapper closes over a single permission, the last
permission iterated during registration, so at call time only that one
permission is checked for the operation; and running the initializer
again over an already-registered class namespace changes no binding. -/
theorem claim_C9 (ps : List String) (p : String) (registry : List String)
    (d : String → Option (String × String)) :
    (∀ fn, fn ∈ registry →
      permInit (ps ++ [p]) registry d fn = some (fn, p))
    ∧ (∀ name,
      permInit (ps ++ [p]) registry (permInit (ps ++ [p]) registry d) name
        = permInit (ps ++ [p]) registry d name) := by
  constructor
  · intro fn hfn
    rw [permInit_append]
    simp [hfn]
  · intro name
    by_cases hn : name ∈ registry
    · rw [permInit_append, permInit_append]
      simp [hn]
    · exact permInit_notMem _ _ _ _ hn

/-- Witness for claim C9: with catalog ["view_item", "can_edit"] and the
default registry, the operation get_queryset is bound to the wrapper over
the last permission can_edit, and a second construction changes nothing. -/
theorem claim_C9_witness :
    "get_queryset" ∈ DEFAULT_REGISTRY
    ∧ permInit (["view_item"] ++ ["can_edit"]) DEFAULT_REGISTRY (fun _ => none)
        "get_queryset" = some ("get_queryset", "can_edit")
    ∧ permInit (["view_item"] ++ ["can_edit"]) DEFAULT_REGISTRY
        (permInit (["view_item"] ++ ["can_edit"]) DEFAULT_REGISTRY (fun _ => none))
        "get_queryset"
      = permInit (["view_item"] ++ ["can_edit"]) DEFAULT_REGISTRY (fun _ => none)
        "get_queryset" := by
  refine ⟨by simp [DEFAULT_REGISTRY], ?_, ?_⟩
  · exact (claim_C9 ["view_item"] "can_edit" DEFAULT_REGISTRY (fun _ => none)).1
      "get_queryset" (by simp [DEFAULT_REGISTRY])
  · exact (claim_C9 ["view_item"] "can_edit" DEFAULT_REGISTRY (fun _ => none)).2
      "get_queryset"

/-- Claim C10: when the base resource-handler type supplies no
implementation of the operation, every fallback path (failed role
resolution, denied permission, or missing specialization) raises
`AttributeError` to the caller, from the `getattr` on the superclass
inside the except block. -/
theorem claim_C10 {α β : Type} (vr : RoleView α β) (vp : PermView α β)
    (fn P : String) (args : α) :
    (vr.superMethods fn = none →
      ((setIntersect vr.role_groups (vr.user.groups.map pyLower)).length ≠ 1 →
        call_role_fn vr fn args = Except.error (Exc.attributeError fn))
      ∧ (∀ r, get_role vr.role_groups vr.user = Except.ok r →
        vr.methods (fn ++ "_for_" ++ r) = none →
        call_role_fn vr fn args = Except.error (Exc.attributeError fn)))
    ∧ (vp.superMethods fn = none →
      (vp.user.has_perm P = false →
        call_permission_fn vp fn P args = Except.error (Exc.attributeError fn))
      ∧ (vp.user.has_perm P = true →
        vp.methods (fn ++ "_for_" ++ P) = none →
        call_permission_fn vp fn P args = Except.error (Exc.attributeError fn))) := by
  constructor
  · intro hsb
    constructor
    · intro hlen
      rw [call_role_fn_fallback_of_err vr fn args hlen]
      exact superInvoke_none _ fn args hsb
    · intro r hr hm
      rw [call_role_fn_fallback_of_missing vr fn r args hr hm]
      exact superInvoke_none _ fn args hsb
  · intro hsb
    constructor
    · intro hp
      rw [call_permission_fn_fallback_of_denied vp fn P args hp]
      exact superInvoke_none _ fn args hsb
    · intro hp hm
      rw [call_permission_fn_fallback_of_missing vp fn P args hp hm]
      exact superInvoke_none _ fn args hsb

/-- A role ViewSet over a base type with no implementation at all. -/
def c10rview : RoleView Unit String where
  role_groups := ["admin"]
  user := ⟨[], fun _ => false⟩
  methods := fun _ => none
  superMethods := fun _ => none

/-- A permission ViewSet over a base type with no implementation at all. -/
def c10pview : PermView Unit String where
  user := ⟨[], fun _ => false⟩
  methods := fun _ => none
  superMethods := fun _ => none

/-- Witness for claim C10: with no base implementation, a caller in no
role group and a caller lacking the permission both receive
`AttributeError` naming the operation. -/
theorem claim_C10_witness :
    call_role_fn c10rview "list" () = Except.error (Exc.attributeError "list")
    ∧ call_permission_fn c10pview "list" "p" ()
        = Except.error (Exc.attributeError "list") := by
  constructor
  · exact ((claim_C10 c10rview c10pview "list" "p" ()).1 rfl).1 (by decide)
  · exact ((claim_C10 c10rview c10pview "list" "p" ()).2 rfl).1 rfl
